import Mathlib

/-!
Shallow embedding of the core of the `web_automation` repository:
the selector-resolution engine (`core/components/selector/`), the
action executor (`core/components/action/action_executor.py`) and the
anti-crawler manager (`core/components/anti_crawler/anti_crawler_manager.py`),
together with proofs of the specified properties.

Python strings are modelled by `String`; the handful of `str` methods the
source uses (`startswith`, slicing, `split(':', 1)`, `strip`, `lower`,
membership of a character) are modelled by the character-list helpers below.
Python exceptions are modelled by the inductive `PyExc`; a raised exception
is an `Except.error`.  The page collaborator (Playwright) is modelled by a
record of query functions which may themselves fail with a foreign
exception, represented by its message string.
-/

/-- Python `needle in haystack` on a single character. -/
def pyHasChar (s : String) (c : Char) : Bool :=
  s.data.any (fun d => d == c)

/-- Character-list version of Python `s.startswith(p)`. -/
def chStarts : List Char → List Char → Bool
  | [], _ => true
  | _ :: _, [] => false
  | c :: cs, d :: ds => c == d && chStarts cs ds

/-- Python `s.startswith(p)`. -/
def pyStartsWith (s p : String) : Bool :=
  chStarts p.data s.data

/-- Python `s[n:]` (drop the first `n` characters). -/
def pyDrop (s : String) (n : Nat) : String :=
  ⟨s.data.drop n⟩

/-- Python `s[n:-1]` (drop the first `n` characters and the last one). -/
def pyDropLast (s : String) : String :=
  ⟨s.data.dropLast⟩

/-- Python `s.strip(c)` for a single character: remove every leading and
trailing occurrence of `c`. -/
def pyStripChar (c : Char) (s : String) : String :=
  ⟨((s.data.dropWhile (fun d => d == c)).reverse.dropWhile (fun d => d == c)).reverse⟩

/-- Python `s.strip()` is empty, i.e. `s` consists of whitespace only. -/
def pyIsBlank (s : String) : Bool :=
  s.data.all Char.isWhitespace

/-- Python `s.split(sep, 1)[0]` for `sep = ':'`. -/
def pyBeforeColon (s : String) : String :=
  ⟨s.data.takeWhile (fun d => d != ':')⟩

/-- Python `s.split(sep, 1)[1]` for `sep = ':'` (everything after the first
colon; only used when a colon is present). -/
def pyAfterColon (s : String) : String :=
  ⟨(s.data.dropWhile (fun d => d != ':')).tail⟩

/-- Python `s.lower()` (ASCII, which covers every string the source feeds it). -/
def pyToLower (s : String) : String :=
  ⟨s.data.map Char.toLower⟩

/-- Python count of a character in a string, `s.count(c)`. -/
def pyCountChar (s : String) (c : Char) : Nat :=
  s.data.count c

/-- The exception taxonomy of `selector_handlers/base_selector_handler.py`
(`SelectorError` and its subclasses `InvalidSelectorError`,
`ElementNotFoundError`), plus `pyError` for any other Python exception
(e.g. one escaping the Playwright page object), carried as its message.
`cause` records the `raise ... from e` chain (the message of `e`). -/
inductive PyExc where
  | invalidSelector (selector : String) (reason : String)
  | elementNotFound (selector : String) (cause : Option String)
  | selectorError (message : String) (cause : Option String)
  | pyError (message : String)
  deriving DecidableEq, Repr

/-- Python `str(e)` of a modelled exception, following the `__init__`
methods in `base_selector_handler.py`. -/
def PyExc.render : PyExc → String
  | .invalidSelector selector reason => reason ++ ": " ++ selector
  | .elementNotFound selector _ => "未找到指定元素: " ++ selector
  | .selectorError message _ => message
  | .pyError message => message

/-- `SelectorEngine._is_valid_css_selector` (selector_engine.py:133-152). -/
def SelectorEngine.is_valid_css_selector (selector : String) : Bool :=
  (selector.data.any (fun c => c ∈ ['#', '.', '[', ']', ':', '>'])) &&
  (pyCountChar selector '[' == pyCountChar selector ']')

/-- `SelectorEngine._is_valid_xpath_selector` (selector_engine.py:154-177). -/
def SelectorEngine.is_valid_xpath_selector (selector : String) : Bool :=
  (pyStartsWith selector "//" || pyStartsWith selector "(") &&
  (selector.data.any (fun c => c ∈ ['@', '=', '[', ']'])) &&
  (pyCountChar selector '[' == pyCountChar selector ']')

/-- `SelectorEngine.parse_selector` (selector_engine.py:75-131): parse a
selector string into a `(type, value)` pair or raise `InvalidSelectorError`. -/
def SelectorEngine.parse_selector (selector : String) : Except PyExc (String × String) :=
  if selector = "" then
    .error (.invalidSelector selector "选择器必须是非空字符串")
  else if pyStartsWith selector "css:" then
    if pyDrop selector 4 = "" then .error (.invalidSelector selector "选择器值不能为空")
    else if ¬ SelectorEngine.is_valid_css_selector (pyDrop selector 4) then
      .error (.invalidSelector selector "无效的 CSS 选择器")
    else .ok ("css", pyDrop selector 4)
  else if pyStartsWith selector "xpath:" then
    if pyDrop selector 6 = "" then .error (.invalidSelector selector "选择器值不能为空")
    else if ¬ SelectorEngine.is_valid_xpath_selector (pyDrop selector 6) then
      .error (.invalidSelector selector "无效的 XPath 选择器")
    else .ok ("xpath", pyDrop selector 6)
  else if pyStartsWith selector "id:" then
    if pyDrop selector 3 = "" then .error (.invalidSelector selector "选择器值不能为空")
    else .ok ("id", pyDrop selector 3)
  else if pyStartsWith selector "name:" then
    if pyDrop selector 5 = "" then .error (.invalidSelector selector "选择器值不能为空")
    else .ok ("name", pyDrop selector 5)
  else if pyStartsWith selector "class:" then
    if pyDrop selector 6 = "" then .error (.invalidSelector selector "选择器值不能为空")
    else .ok ("class", pyDrop selector 6)
  else if pyStartsWith selector "[name=" then
    .ok ("name", pyStripChar '"' (pyDropLast (pyDrop selector 6)))
  else if pyStartsWith selector "#" then
    .ok ("id", pyDrop selector 1)
  else if pyStartsWith selector "." then
    .ok ("class", pyDrop selector 1)
  else if pyHasChar selector ':' then
    .error (.invalidSelector selector "不支持的选择器类型")
  else
    .ok ("css", selector)

/-- The page capability consumed by the selector handlers (a Playwright
`Page`), over an abstract element type `α`.  `query_selector` /
`query_selector_all` back the CSS/id/name/class handlers; `locator_first` /
`locator_all` collapse the `locator(...).first().element_handle()` resp.
`locator(...).all_element_handles()` chains used by the XPath handler.
`Except.error m` models the call raising a foreign exception with message `m`. -/
structure PageModel (α : Type) where
  query_selector : String → Except String (Option α)
  query_selector_all : String → Except String (List α)
  locator_first : String → Except String (Option α)
  locator_all : String → Except String (List α)

/-- `CSSSelectorHandler.find_element` (css_selector_handler.py:19-50).
Empty or blank selector raises `InvalidSelectorError`; a `None` query result
raises `ElementNotFoundError`; any other exception from the page is caught
and re-raised as `ElementNotFoundError(selector) from e`. -/
def CSSSelectorHandler.find_element (page : PageModel α) (selector : String) :
    Except PyExc (Option α) :=
  if selector = "" || pyIsBlank selector then
    .error (.invalidSelector selector "CSS 选择器必须是非空字符串")
  else
    match page.query_selector selector with
    | .ok (some element) => .ok (some element)
    | .ok none => .error (.elementNotFound selector none)
    | .error e => .error (.elementNotFound selector (some e))

/-- `CSSSelectorHandler.find_elements` (css_selector_handler.py:52-83). -/
def CSSSelectorHandler.find_elements (page : PageModel α) (selector : String) :
    Except PyExc (List α) :=
  if selector = "" || pyIsBlank selector then
    .error (.invalidSelector selector "CSS 选择器必须是非空字符串")
  else
    match page.query_selector_all selector with
    | .ok (e :: es) => .ok (e :: es)
    | .ok [] => .error (.elementNotFound selector none)
    | .error e => .error (.elementNotFound selector (some e))

/-- `XPathSelectorHandler.find_element` (selector_handlers/xpath_selector_handler.py:18-49). -/
def XPathSelectorHandler.find_element (page : PageModel α) (selector : String) :
    Except PyExc (Option α) :=
  if selector = "" then
    .error (.invalidSelector selector "选择器必须是非空字符串")
  else if ¬ (pyStartsWith selector "//" || pyStartsWith selector "(") then
    .error (.invalidSelector selector "XPath 选择器必须以 '//' 或 '(' 开头")
  else
    match page.locator_first selector with
    | .ok (some element) => .ok (some element)
    | .ok none => .error (.elementNotFound selector none)
    | .error e => .error (.elementNotFound selector (some e))

/-- `XPathSelectorHandler.find_elements` (selector_handlers/xpath_selector_handler.py:51-83). -/
def XPathSelectorHandler.find_elements (page : PageModel α) (selector : String) :
    Except PyExc (List α) :=
  if selector = "" then
    .error (.invalidSelector selector "选择器必须是非空字符串")
  else if ¬ (pyStartsWith selector "//" || pyStartsWith selector "(") then
    .error (.invalidSelector selector "XPath 选择器必须以 '//' 或 '(' 开头")
  else
    match page.locator_all selector with
    | .ok (e :: es) => .ok (e :: es)
    | .ok [] => .error (.elementNotFound selector none)
    | .error e => .error (.elementNotFound selector (some e))

/-- The value normalization of `NameSelectorHandler` (name_selector_handler.py:33-36):
wrap as `[name="value"]` unless already wrapped or written with a `name:` prefix. -/
def nameNormalize (selector_value : String) : String :=
  if ¬ pyStartsWith selector_value "[name=\"" && ¬ pyStartsWith selector_value "name:" then
    "[name=\"" ++ selector_value ++ "\"]"
  else if pyStartsWith selector_value "name:" then
    "[name=\"" ++ pyAfterColon selector_value ++ "\"]"
  else
    selector_value

/-- `NameSelectorHandler.find_element` (name_selector_handler.py:18-57).
All failures other than the typed ones are caught and re-raised as
`ElementNotFoundError(normalized) from e`. -/
def NameSelectorHandler.find_element (page : PageModel α) (selector_value : String) :
    Except PyExc (Option α) :=
  if selector_value = "" then
    .error (.invalidSelector selector_value "Name 选择器必须是非空字符串")
  else
    match page.query_selector (nameNormalize selector_value) with
    | .ok (some element) => .ok (some element)
    | .ok none => .error (.elementNotFound (nameNormalize selector_value) none)
    | .error e => .error (.elementNotFound (nameNormalize selector_value) (some e))

/-- `NameSelectorHandler.find_elements` (name_selector_handler.py:59-98). -/
def NameSelectorHandler.find_elements (page : PageModel α) (selector_value : String) :
    Except PyExc (List α) :=
  if selector_value = "" then
    .error (.invalidSelector selector_value "Name 选择器必须是非空字符串")
  else
    match page.query_selector_all (nameNormalize selector_value) with
    | .ok (e :: es) => .ok (e :: es)
    | .ok [] => .error (.elementNotFound (nameNormalize selector_value) none)
    | .error e => .error (.elementNotFound (nameNormalize selector_value) (some e))

/-- The value normalization of `ClassSelectorHandler` (class_selector_handler.py:32-35):
prepend `.` unless already present or written with a `class:` prefix. -/
def classNormalize (selector_value : String) : String :=
  if ¬ pyStartsWith selector_value "." && ¬ pyStartsWith selector_value "class:" then
    "." ++ selector_value
  else if pyStartsWith selector_value "class:" then
    "." ++ pyAfterColon selector_value
  else
    selector_value

/-- `ClassSelectorHandler.find_element` (class_selector_handler.py:18-46).
Unlike the CSS/name/xpath handlers there is no `try`/`except` here: an
exception from the page propagates unchanged. -/
def ClassSelectorHandler.find_element (page : PageModel α) (selector_value : String) :
    Except PyExc (Option α) :=
  if selector_value = "" then
    .error (.invalidSelector selector_value "Class 选择器必须是非空字符串")
  else
    match page.query_selector (classNormalize selector_value) with
    | .ok (some element) => .ok (some element)
    | .ok none => .error (.elementNotFound (classNormalize selector_value) none)
    | .error e => .error (.pyError e)

/-- `ClassSelectorHandler.find_elements` (class_selector_handler.py:48-76). -/
def ClassSelectorHandler.find_elements (page : PageModel α) (selector_value : String) :
    Except PyExc (List α) :=
  if selector_value = "" then
    .error (.invalidSelector selector_value "Class 选择器必须是非空字符串")
  else
    match page.query_selector_all (classNormalize selector_value) with
    | .ok (e :: es) => .ok (e :: es)
    | .ok [] => .error (.elementNotFound (classNormalize selector_value) none)
    | .error e => .error (.pyError e)

/-- Modelled from the spec: `id_selector_handler.py` is imported by
`selector_engine.py` but is missing from the sources.  §4.2 of the spec:
the id handler prepends `#` if absent. -/
def idNormalize (selector_value : String) : String :=
  if pyStartsWith selector_value "#" then selector_value else "#" ++ selector_value

/-- Modelled from the spec: `IDSelectorHandler.find_element`
(`id_selector_handler.py` is missing from the sources).  §4.2: normalize by
prepending `#` if absent, first DOM match, `ElementNotFoundError` on zero
matches; §4.1/§7: unexpected page failures are wrapped at the engine, so the
handler lets them propagate. -/
def IDSelectorHandler.find_element (page : PageModel α) (selector_value : String) :
    Except PyExc (Option α) :=
  if selector_value = "" then
    .error (.invalidSelector selector_value "ID 选择器必须是非空字符串")
  else
    match page.query_selector (idNormalize selector_value) with
    | .ok (some element) => .ok (some element)
    | .ok none => .error (.elementNotFound (idNormalize selector_value) none)
    | .error e => .error (.pyError e)

/-- Modelled from the spec: `IDSelectorHandler.find_elements`
(`id_selector_handler.py` is missing from the sources); see
`IDSelectorHandler.find_element`. -/
def IDSelectorHandler.find_elements (page : PageModel α) (selector_value : String) :
    Except PyExc (List α) :=
  if selector_value = "" then
    .error (.invalidSelector selector_value "ID 选择器必须是非空字符串")
  else
    match page.query_selector_all (idNormalize selector_value) with
    | .ok (e :: es) => .ok (e :: es)
    | .ok [] => .error (.elementNotFound (idNormalize selector_value) none)
    | .error e => .error (.pyError e)

/-- Handler dispatch of `SelectorEngine` (`self.handlers`,
selector_engine.py:55-61) for single-element lookup. -/
def SelectorEngine.dispatch_find_element (page : PageModel α) (ty v : String)
    (original : String) : Except PyExc (Option α) :=
  match ty with
  | "css" => CSSSelectorHandler.find_element page v
  | "xpath" => XPathSelectorHandler.find_element page v
  | "id" => IDSelectorHandler.find_element page v
  | "name" => NameSelectorHandler.find_element page v
  | "class" => ClassSelectorHandler.find_element page v
  | _ => .error (.invalidSelector original ("不支持的选择器类型: " ++ ty))

/-- Handler dispatch of `SelectorEngine` for multi-element lookup. -/
def SelectorEngine.dispatch_find_elements (page : PageModel α) (ty v : String)
    (original : String) : Except PyExc (List α) :=
  match ty with
  | "css" => CSSSelectorHandler.find_elements page v
  | "xpath" => XPathSelectorHandler.find_elements page v
  | "id" => IDSelectorHandler.find_elements page v
  | "name" => NameSelectorHandler.find_elements page v
  | "class" => ClassSelectorHandler.find_elements page v
  | _ => .error (.invalidSelector original ("不支持的选择器类型: " ++ ty))

/-- `SelectorEngine.find_element` (selector_engine.py:179-211): parse, route
to the handler, raise `ElementNotFoundError` on a `None` result, re-raise
the typed errors, and wrap anything else as a chained `SelectorError` whose
message holds the offending selector string. -/
def SelectorEngine.find_element (page : PageModel α) (selector : String) :
    Except PyExc α :=
  match SelectorEngine.parse_selector selector with
  | .error e => .error e
  | .ok (selector_type, selector_value) =>
    match SelectorEngine.dispatch_find_element page selector_type selector_value selector with
    | .ok (some element) => .ok element
    | .ok none => .error (.elementNotFound selector none)
    | .error (.invalidSelector s r) => .error (.invalidSelector s r)
    | .error (.elementNotFound s c) => .error (.elementNotFound s c)
    | .error e =>
      .error (.selectorError ("查找元素时发生未预期的错误: " ++ selector ++ ", " ++ e.render)
        (some e.render))

/-- `SelectorEngine.find_elements` (selector_engine.py:213-245): as
`find_element`, with an empty result list raising `ElementNotFoundError`. -/
def SelectorEngine.find_elements (page : PageModel α) (selector : String) :
    Except PyExc (List α) :=
  match SelectorEngine.parse_selector selector with
  | .error e => .error e
  | .ok (selector_type, selector_value) =>
    match SelectorEngine.dispatch_find_elements page selector_type selector_value selector with
    | .ok (e :: es) => .ok (e :: es)
    | .ok [] => .error (.elementNotFound selector none)
    | .error (.invalidSelector s r) => .error (.invalidSelector s r)
    | .error (.elementNotFound s c) => .error (.elementNotFound s c)
    | .error e =>
      .error (.selectorError ("查找多个元素时发生未预期的错误: " ++ selector ++ ", " ++ e.render)
        (some e.render))

/-!  The action executor (`core/components/action/action_executor.py`).
`action_executor.py` defines its own small `SelectorEngine` at module level
(lines 9-48), distinct from the one in `selector_engine.py`; it is embedded
here under the `AESelectorEngine` prefix. -/

/-- Python `str(x)` of an `Option String` (an absent value prints `None`). -/
def pyOptStr : Option String → String
  | some s => s
  | none => "None"

/-- `SelectorEngine.parse_selector` of action_executor.py (lines 13-48):
split on the first `:`, look the (lowercased) type up in the normalization
table, or raise `ValueError` (modelled as `Except.error` of its message). -/
def AESelectorEngine.parse_selector (selector : String) : Except String (String × String) :=
  if ¬ pyHasChar selector ':' then
    .ok ("css", selector)
  else
    let type_part := pyToLower (pyBeforeColon selector)
    let value_part := pyAfterColon selector
    match type_part with
    | "css" => .ok ("css", value_part)
    | "xpath" => .ok ("xpath", value_part)
    | "id" => .ok ("id", "#" ++ value_part)
    | "name" => .ok ("name", "[name=\"" ++ value_part ++ "\"]")
    | "class" => .ok ("class", "." ++ value_part)
    | _ => .error ("不支持的选择器类型: " ++ type_part)

/-- Status field of an action result dict, `"success"` or `"error"`. -/
inductive Status where
  | success
  | error
  deriving DecidableEq, Repr

/-- An action result dict `{status, message, ...}`; `url` models the extra
`url` key of the `goto` result. -/
structure ActionResult where
  status : Status
  message : String
  url : Option String := none
  deriving DecidableEq, Repr

/-- An action configuration dict as consumed by `execute_action`:
`action.get('type')`, `action.get('selector')`, `action.get('value')`
(absent keys give `None`). -/
structure ActionDescriptor where
  type : Option String := none
  selector : Option String := none
  value : Option String := none
  deriving DecidableEq, Repr

/-- The Playwright page capability consumed by `execute_action`, with each
primitive applied to the argument strings the source passes (`Option` where
Python may pass `None`); `Except.error m` models the call raising with
message `m`.  `url` is the page's current URL read by the `goto` branch. -/
structure ExecPage where
  goto : Option String → Except String Unit
  url : String
  click : Option String → Except String Unit
  fill : Option String → Option String → Except String Unit
  select_option : Option String → Option String → Except String Unit
  check : Option String → Except String Unit
  wait_for_selector : Option String → Except String Unit

/-- The selector string handed to a page primitive: the `xpath:` prefix is
re-added for xpath-typed selectors (action_executor.py, e.g. lines 176-179). -/
def xpathAdjusted (selector_type selector : Option String) : Option String :=
  if selector_type = some "xpath" then some ("xpath:" ++ pyOptStr selector) else selector

/-- `ActionExecutor.execute_action` (action_executor.py:125-243) in the case
where an active page is supplied, as on every call from `execute_workflow`
(the page-acquisition branch for `page=None` is then skipped, and the
anti-crawler delay has no observable effect on the result).  Every exception
raised inside the `try` block — selector parsing (`ValueError`), a page
primitive failing, or an unknown action type — is caught at this boundary
and converted into an error-status result. -/
def ActionExecutor.execute_action (page : ExecPage) (action : ActionDescriptor) :
    ActionResult :=
  let action_type := action.type
  let selector_str := action.selector
  let value := action.value
  let parsed : Except String (Option String × Option String) :=
    match selector_str with
    | some s =>
      if s = "" then .ok (none, none)
      else
        match AESelectorEngine.parse_selector s with
        | .ok (ty, v) => .ok (some v, some ty)
        | .error msg => .error msg
    | none => .ok (none, none)
  match parsed with
  | .error msg => { status := .error, message := msg }
  | .ok (selector, selector_type) =>
    match action_type with
    | some "goto" =>
      match page.goto value with
      | .ok _ => { status := .success, message := "跳转到 " ++ pyOptStr value, url := some page.url }
      | .error e => { status := .error, message := e }
    | some "click" =>
      match page.click (xpathAdjusted selector_type selector) with
      | .ok _ => { status := .success, message := "点击 " ++ pyOptStr selector }
      | .error e => { status := .error, message := e }
    | some "input" =>
      match page.fill (xpathAdjusted selector_type selector) value with
      | .ok _ => { status := .success, message := "在 " ++ pyOptStr selector ++ " 输入 " ++ pyOptStr value }
      | .error e => { status := .error, message := e }
    | some "select" =>
      match page.select_option (xpathAdjusted selector_type selector) value with
      | .ok _ => { status := .success, message := "在 " ++ pyOptStr selector ++ " 选择 " ++ pyOptStr value }
      | .error e => { status := .error, message := e }
    | some "radio" =>
      match page.check (xpathAdjusted selector_type selector) with
      | .ok _ => { status := .success, message := "选择单选框 " ++ pyOptStr selector }
      | .error e => { status := .error, message := e }
    | some "checkbox" =>
      match page.check (xpathAdjusted selector_type selector) with
      | .ok _ => { status := .success, message := "选择复选框 " ++ pyOptStr selector }
      | .error e => { status := .error, message := e }
    | some "wait" =>
      match page.wait_for_selector (xpathAdjusted selector_type selector) with
      | .ok _ => { status := .success, message := "等待 " ++ pyOptStr selector ++ " 可见" }
      | .error e => { status := .error, message := e }
    | other => { status := .error, message := "不支持的动作类型: " ++ pyOptStr other }

/-- The browser manager collaborator as consumed by `execute_workflow`:
`launch()`, `create_context()` and `new_page()` may each fail with an
exception message; `close()` (the release) always runs in the `finally`. -/
structure BrowserModel where
  launch : Except String Unit
  create_context : Except String Unit
  new_page : Except String ExecPage

/-- Outcome of one `execute_workflow` run: the result ledger, the number of
successful `new_page` acquisitions, and the number of `close()` calls. -/
structure WorkflowOutcome where
  results : List ActionResult
  pages_acquired : Nat
  closes : Nat
  deriving DecidableEq, Repr

/-- The descriptor loop of `execute_workflow` (action_executor.py:259-265):
execute in order, append each result, and break after the first
error-status result. -/
def ActionExecutor.runLoop (page : ExecPage) : List ActionDescriptor → List ActionResult
  | [] => []
  | action :: rest =>
    let result := ActionExecutor.execute_action page action
    if result.status = .error then [result]
    else result :: ActionExecutor.runLoop page rest

/-- `ActionExecutor.execute_workflow` (action_executor.py:245-277): acquire
the page (launch, create_context, new_page — all before the loop, whatever
the descriptor list), run the loop, catch any exception escaping it as one
synthetic error result, and `close()` exactly once in the `finally`. -/
def ActionExecutor.execute_workflow (b : BrowserModel) (workflow : List ActionDescriptor) :
    WorkflowOutcome :=
  match b.launch with
  | .error e => { results := [{ status := .error, message := e }], pages_acquired := 0, closes := 1 }
  | .ok _ =>
    match b.create_context with
    | .error e => { results := [{ status := .error, message := e }], pages_acquired := 0, closes := 1 }
    | .ok _ =>
      match b.new_page with
      | .error e => { results := [{ status := .error, message := e }], pages_acquired := 0, closes := 1 }
      | .ok page =>
        { results := ActionExecutor.runLoop page workflow, pages_acquired := 1, closes := 1 }

/-!  The anti-crawler manager (`core/components/anti_crawler/anti_crawler_manager.py`).
Instants and delays are modelled as rationals; the persistence collaborator
(JSON files under `config/`) is modelled by a `persist_ok` flag: `false`
means the file write raises.  Each mutation returns the final in-memory
state together with whether an exception propagated to the caller. -/

/-- The delay configuration dict (`delay_config`, keys `min_delay`,
`max_delay`, `random_delay`). -/
structure DelayConfig where
  min_delay : ℚ
  max_delay : ℚ
  random_delay : Bool
  deriving DecidableEq, Repr

/-- A proxy configuration dict. -/
structure Proxy where
  http : String
  https : String
  deriving DecidableEq, Repr

/-- The mutable in-memory state of `AntiCrawlerManager`
(`self.user_agents`, `self.proxies`, `self.delay_config`). -/
structure AntiCrawlerState where
  user_agents : List String
  proxies : List Proxy
  delay_config : DelayConfig
  deriving DecidableEq, Repr

/-- `AntiCrawlerManager.should_delay` (anti_crawler_manager.py:80-86):
`False` when no last request time is recorded (`not self.last_request_time`),
else `True` iff the elapsed seconds are below `min_delay`.  `now` is the
value of `datetime.now()` at the call. -/
def AntiCrawlerManager.should_delay (last_request_time : Option ℚ) (now : ℚ)
    (delay_config : DelayConfig) : Bool :=
  match last_request_time with
  | none => false
  | some t => decide (now - t < delay_config.min_delay)

/-- `AntiCrawlerManager.get_delay_time` (anti_crawler_manager.py:71-78),
with the `random.uniform(min, max)` draw supplied as `draw`. -/
def AntiCrawlerManager.get_delay_time (delay_config : DelayConfig) (draw : ℚ) : ℚ :=
  if delay_config.random_delay then draw else delay_config.min_delay

/-- `AntiCrawlerManager.save_user_agents` (anti_crawler_manager.py:92-101):
write the JSON file, then assign `self.user_agents`.  If the write raises
(`persist_ok = false`) the assignment is never reached; note the caller may
already have mutated the list in place. -/
def AntiCrawlerManager.save_user_agents (persist_ok : Bool) (s : AntiCrawlerState)
    (user_agents : List String) : AntiCrawlerState × Bool :=
  if persist_ok then ({ s with user_agents := user_agents }, false)
  else (s, true)

/-- `AntiCrawlerManager.save_proxies` (anti_crawler_manager.py:103-112). -/
def AntiCrawlerManager.save_proxies (persist_ok : Bool) (s : AntiCrawlerState)
    (proxies : List Proxy) : AntiCrawlerState × Bool :=
  if persist_ok then ({ s with proxies := proxies }, false)
  else (s, true)

/-- `AntiCrawlerManager.save_delay_config` (anti_crawler_manager.py:114-123):
write the JSON file first, assign `self.delay_config` only afterwards. -/
def AntiCrawlerManager.save_delay_config (persist_ok : Bool) (s : AntiCrawlerState)
    (config : DelayConfig) : AntiCrawlerState × Bool :=
  if persist_ok then ({ s with delay_config := config }, false)
  else (s, true)

/-- `AntiCrawlerManager.add_user_agent` (anti_crawler_manager.py:171-175):
`self.user_agents.append(...)` mutates the in-memory list before
`save_user_agents` runs, and is not undone if the save raises. -/
def AntiCrawlerManager.add_user_agent (persist_ok : Bool) (s : AntiCrawlerState)
    (user_agent : String) : AntiCrawlerState × Bool :=
  if user_agent ∈ s.user_agents then (s, false)
  else
    let s1 := { s with user_agents := s.user_agents ++ [user_agent] }
    AntiCrawlerManager.save_user_agents persist_ok s1 s1.user_agents

/-- `AntiCrawlerManager.remove_user_agent` (anti_crawler_manager.py:177-181):
`self.user_agents.remove(...)` (first occurrence) before the save. -/
def AntiCrawlerManager.remove_user_agent (persist_ok : Bool) (s : AntiCrawlerState)
    (user_agent : String) : AntiCrawlerState × Bool :=
  if user_agent ∈ s.user_agents then
    let s1 := { s with user_agents := s.user_agents.erase user_agent }
    AntiCrawlerManager.save_user_agents persist_ok s1 s1.user_agents
  else (s, false)

/-- `AntiCrawlerManager.add_proxy` (anti_crawler_manager.py:157-163): if the
proxy validates (`validate_ok` supplies the network probe's outcome), append
in place, then save. -/
def AntiCrawlerManager.add_proxy (validate_ok persist_ok : Bool) (s : AntiCrawlerState)
    (proxy : Proxy) : AntiCrawlerState × Bool :=
  if validate_ok then
    let s1 := { s with proxies := s.proxies ++ [proxy] }
    AntiCrawlerManager.save_proxies persist_ok s1 s1.proxies
  else (s, false)

/-- `AntiCrawlerManager.remove_proxy` (anti_crawler_manager.py:165-169). -/
def AntiCrawlerManager.remove_proxy (persist_ok : Bool) (s : AntiCrawlerState)
    (proxy : Proxy) : AntiCrawlerState × Bool :=
  if proxy ∈ s.proxies then
    let s1 := { s with proxies := s.proxies.erase proxy }
    AntiCrawlerManager.save_proxies persist_ok s1 s1.proxies
  else (s, false)

/-- `AntiCrawlerManager.update_delay_config` (anti_crawler_manager.py:183-190):
build the new config dict and delegate to `save_delay_config` — so the
in-memory `self.delay_config` is assigned only after a successful write. -/
def AntiCrawlerManager.update_delay_config (persist_ok : Bool) (s : AntiCrawlerState)
    (min_delay max_delay : ℚ) (random_delay : Bool) : AntiCrawlerState × Bool :=
  AntiCrawlerManager.save_delay_config persist_ok s
    { min_delay := min_delay, max_delay := max_delay, random_delay := random_delay }

/-!  Concrete collaborators used by witnesses and counterexamples. -/

/-- A page on which every query yields zero elements and no call raises. -/
def emptyPage : PageModel String :=
  { query_selector := fun _ => .ok none
    query_selector_all := fun _ => .ok []
    locator_first := fun _ => .ok none
    locator_all := fun _ => .ok [] }

/-- A page whose every query raises a foreign exception `"boom"`. -/
def boomPage : PageModel String :=
  { query_selector := fun _ => .error "boom"
    query_selector_all := fun _ => .error "boom"
    locator_first := fun _ => .error "boom"
    locator_all := fun _ => .error "boom" }

/-- A page that answers every query with the query string itself, making the
string actually sent to the page observable in the result. -/
def echoPage : PageModel String :=
  { query_selector := fun s => .ok (some s)
    query_selector_all := fun s => .ok [s]
    locator_first := fun s => .ok (some s)
    locator_all := fun s => .ok [s] }

/-- An executor page on which every primitive succeeds. -/
def okExecPage : ExecPage :=
  { goto := fun _ => .ok ()
    url := "about:blank"
    click := fun _ => .ok ()
    fill := fun _ _ => .ok ()
    select_option := fun _ _ => .ok ()
    check := fun _ => .ok ()
    wait_for_selector := fun _ => .ok () }

/-- An executor page on which `click` raises and the rest succeed. -/
def clickFailPage : ExecPage :=
  { okExecPage with click := fun _ => .error "element is not attached" }

/-- A browser collaborator whose acquisition steps all succeed, yielding
`okExecPage`. -/
def okBrowser : BrowserModel :=
  { launch := .ok (), create_context := .ok (), new_page := .ok okExecPage }

/-- A browser collaborator yielding `clickFailPage`. -/
def clickFailBrowser : BrowserModel :=
  { launch := .ok (), create_context := .ok (), new_page := .ok clickFailPage }

/-- A sample anti-crawler state. -/
def sampleACState : AntiCrawlerState :=
  { user_agents := ["Mozilla/5.0 (X11; Linux x86_64)"]
    proxies := [{ http := "http://p1:8080", https := "https://p1:8080" }]
    delay_config := { min_delay := 1, max_delay := 3, random_delay := true } }

/-- A sample `goto` action configuration dict. -/
def gotoStep : ActionDescriptor :=
  { type := some "goto", value := some "http://example.com" }

/-- A sample `click` action configuration dict. -/
def clickStep : ActionDescriptor :=
  { type := some "click", selector := some "#submit" }

/-- Does `hay` contain `needle` as a contiguous substring (recursion over
the haystack's character list)? -/
def chHasInfix (needle hay : List Char) : Bool :=
  chStarts needle hay ||
    match hay with
    | [] => false
    | _ :: t => chHasInfix needle t

/-- Python `needle in hay` on strings. -/
def strContains (hay needle : String) : Bool :=
  chHasInfix needle.data hay.data

/-!  Helper lemmas about the string model, shared by the claim theorems. -/

theorem strData_append (a b : String) : (a ++ b).data = a.data ++ b.data := by
  cases a
  cases b
  rfl

theorem strAppend_assoc (a b c : String) : (a ++ b) ++ c = a ++ (b ++ c) := by
  cases a with
  | mk l1 =>
  cases b with
  | mk l2 =>
  cases c with
  | mk l3 =>
  show String.mk ((l1 ++ l2) ++ l3) = String.mk (l1 ++ (l2 ++ l3))
  rw [List.append_assoc]

theorem chStarts_self_append (p rest : List Char) : chStarts p (p ++ rest) = true := by
  induction p with
  | nil => rfl
  | cons c cs ih => simp [chStarts, ih]

theorem chStarts_cons {c : Char} {cs l : List Char} (h : chStarts (c :: cs) l = true) :
    ∃ t, l = c :: t ∧ chStarts cs t = true := by
  cases l with
  | nil => simp [chStarts] at h
  | cons d ds =>
    simp only [chStarts, Bool.and_eq_true, beq_iff_eq] at h
    exact ⟨ds, by rw [h.1], h.2⟩

theorem pyStartsWith_append (p t : String) : pyStartsWith (p ++ t) p = true := by
  unfold pyStartsWith
  rw [strData_append]
  exact chStarts_self_append p.data t.data

/-- A successful parse always yields one of the five handler types. -/
theorem parse_selector_type_mem (s ty v : String)
    (h : SelectorEngine.parse_selector s = .ok (ty, v)) :
    ty = "css" ∨ ty = "xpath" ∨ ty = "id" ∨ ty = "name" ∨ ty = "class" := by
  unfold SelectorEngine.parse_selector at h
  repeat' split at h
  all_goals simp_all

/-- A failed parse always raises `InvalidSelectorError` on the offending
input string. -/
theorem parse_selector_error_shape (s : String) (e : PyExc)
    (h : SelectorEngine.parse_selector s = .error e) :
    ∃ r, e = .invalidSelector s r := by
  unfold SelectorEngine.parse_selector at h
  repeat' split at h
  all_goals first
    | (exact ⟨_, (Except.error.inj h).symm⟩)
    | simp_all

/-- Outside the three shorthand branches, a successful parse never yields an
empty value. -/
theorem parse_selector_value_ne_empty (s ty v : String)
    (h : SelectorEngine.parse_selector s = .ok (ty, v))
    (h1 : pyStartsWith s "[name=" = false) (h2 : pyStartsWith s "#" = false)
    (h3 : pyStartsWith s "." = false) : v ≠ "" := by
  unfold SelectorEngine.parse_selector at h
  repeat' split at h
  all_goals simp_all

/-- C5: any input with no recognized type prefix that is not one of the
shorthands and contains `:` anywhere is rejected by `parse_selector` with
`InvalidSelectorError`, whatever stands before or after the colon. -/
theorem parse_selector_unknown_type_colon (s : String) (hne : s ≠ "")
    (h1 : pyStartsWith s "css:" = false) (h2 : pyStartsWith s "xpath:" = false)
    (h3 : pyStartsWith s "id:" = false) (h4 : pyStartsWith s "name:" = false)
    (h5 : pyStartsWith s "class:" = false) (h6 : pyStartsWith s "[name=" = false)
    (h7 : pyStartsWith s "#" = false) (h8 : pyStartsWith s "." = false)
    (hc : pyHasChar s ':' = true) :
    SelectorEngine.parse_selector s = .error (.invalidSelector s "不支持的选择器类型") := by
  unfold SelectorEngine.parse_selector
  simp [hne, h1, h2, h3, h4, h5, h6, h7, h8, hc]

/-- Witness for C5: `parse("unsupported:x")` raises `InvalidSelectorError`
even though the remainder after the colon is plain CSS. -/
theorem parse_selector_unknown_type_colon_witness :
    SelectorEngine.parse_selector "unsupported:x" =
      .error (.invalidSelector "unsupported:x" "不支持的选择器类型") :=
  parse_selector_unknown_type_colon "unsupported:x" (by decide) (by decide) (by decide)
    (by decide) (by decide) (by decide) (by decide) (by decide) (by decide) (by decide)

/-- C6: `parse("#foo")` and `parse("id:foo")` both succeed with the same
parsed selector `(id, "foo")`, and the id normalization turns that value
into `"#foo"` — both in the executor's own parser (whose table prepends the
`#` directly) and in the id handler's normalization. -/
theorem parse_id_shorthand_and_prefix_agree :
    SelectorEngine.parse_selector "#foo" = .ok ("id", "foo") ∧
    SelectorEngine.parse_selector "id:foo" = .ok ("id", "foo") ∧
    AESelectorEngine.parse_selector "id:foo" = .ok ("id", "#foo") ∧
    AESelectorEngine.parse_selector "#foo" = .ok ("css", "#foo") ∧
    idNormalize "foo" = "#foo" := by
  refine ⟨?_, ?_, ?_, ?_, ?_⟩ <;> rfl

/-- C7 (amended): every successful parse yields a type among the five known
ones, and the value is non-empty whenever the input took none of the three
shorthand branches (`[name=`, leading `#`, leading `.`); the shorthand
branches themselves can produce the empty value. -/
theorem parse_selector_spec_invariant (s ty v : String)
    (h : SelectorEngine.parse_selector s = .ok (ty, v)) :
    (ty = "css" ∨ ty = "xpath" ∨ ty = "id" ∨ ty = "name" ∨ ty = "class") ∧
    (pyStartsWith s "[name=" = false → pyStartsWith s "#" = false →
      pyStartsWith s "." = false → v ≠ "") :=
  ⟨parse_selector_type_mem s ty v h,
   fun h1 h2 h3 => parse_selector_value_ne_empty s ty v h h1 h2 h3⟩

/-- Witness for C7 (amended), at the plain CSS input `"div"`. -/
theorem parse_selector_spec_invariant_witness :
    ("css" = "css" ∨ "css" = "xpath" ∨ "css" = "id" ∨ "css" = "name" ∨ "css" = "class") ∧
    (pyStartsWith "div" "[name=" = false → pyStartsWith "div" "#" = false →
      pyStartsWith "div" "." = false → "div" ≠ "") :=
  parse_selector_spec_invariant "div" "css" "div" (by rfl)

/-- Counterexample for C7 as stated: `parse("#")` and `parse(".")` succeed
with an empty value, violating the non-empty-value invariant. -/
theorem parse_selector_shorthand_empty_value :
    SelectorEngine.parse_selector "#" = .ok ("id", "") ∧
    SelectorEngine.parse_selector "." = .ok ("class", "") := by
  exact ⟨rfl, rfl⟩

/-!  Behaviour of each handler on a page whose every query yields zero
elements (`emptyPage`): either the handler's own validation rejects the
value, or the lookup raises `ElementNotFoundError`. -/

theorem css_empty_find_element (v : String) :
    (∃ r, CSSSelectorHandler.find_element emptyPage v = .error (.invalidSelector v r)) ∨
    CSSSelectorHandler.find_element emptyPage v = .error (.elementNotFound v none) := by
  unfold CSSSelectorHandler.find_element
  by_cases hb : (v = "" || pyIsBlank v) = true
  · exact Or.inl ⟨"CSS 选择器必须是非空字符串", by simp [hb]⟩
  · exact Or.inr (by simp [hb, emptyPage])

theorem css_empty_find_elements (v : String) :
    (∃ r, CSSSelectorHandler.find_elements emptyPage v = .error (.invalidSelector v r)) ∨
    CSSSelectorHandler.find_elements emptyPage v = .error (.elementNotFound v none) := by
  unfold CSSSelectorHandler.find_elements
  by_cases hb : (v = "" || pyIsBlank v) = true
  · exact Or.inl ⟨"CSS 选择器必须是非空字符串", by simp [hb]⟩
  · exact Or.inr (by simp [hb, emptyPage])

theorem xpath_empty_find_element (v : String) :
    (∃ r, XPathSelectorHandler.find_element emptyPage v = .error (.invalidSelector v r)) ∨
    XPathSelectorHandler.find_element emptyPage v = .error (.elementNotFound v none) := by
  unfold XPathSelectorHandler.find_element
  by_cases he : v = ""
  · exact Or.inl ⟨"选择器必须是非空字符串", by simp [he]⟩
  · by_cases hp : (pyStartsWith v "//" || pyStartsWith v "(") = true
    · exact Or.inr (by simp [he, hp, emptyPage])
    · exact Or.inl ⟨"XPath 选择器必须以 '//' 或 '(' 开头", by simp [he, hp]⟩

theorem xpath_empty_find_elements (v : String) :
    (∃ r, XPathSelectorHandler.find_elements emptyPage v = .error (.invalidSelector v r)) ∨
    XPathSelectorHandler.find_elements emptyPage v = .error (.elementNotFound v none) := by
  unfold XPathSelectorHandler.find_elements
  by_cases he : v = ""
  · exact Or.inl ⟨"选择器必须是非空字符串", by simp [he]⟩
  · by_cases hp : (pyStartsWith v "//" || pyStartsWith v "(") = true
    · exact Or.inr (by simp [he, hp, emptyPage])
    · exact Or.inl ⟨"XPath 选择器必须以 '//' 或 '(' 开头", by simp [he, hp]⟩

theorem id_empty_find_element (v : String) :
    (∃ r, IDSelectorHandler.find_element emptyPage v = .error (.invalidSelector v r)) ∨
    IDSelectorHandler.find_element emptyPage v = .error (.elementNotFound (idNormalize v) none) := by
  unfold IDSelectorHandler.find_element
  by_cases he : v = ""
  · exact Or.inl ⟨"ID 选择器必须是非空字符串", by simp [he]⟩
  · exact Or.inr (by simp [he, emptyPage])

theorem id_empty_find_elements (v : String) :
    (∃ r, IDSelectorHandler.find_elements emptyPage v = .error (.invalidSelector v r)) ∨
    IDSelectorHandler.find_elements emptyPage v = .error (.elementNotFound (idNormalize v) none) := by
  unfold IDSelectorHandler.find_elements
  by_cases he : v = ""
  · exact Or.inl ⟨"ID 选择器必须是非空字符串", by simp [he]⟩
  · exact Or.inr (by simp [he, emptyPage])

theorem name_empty_find_element (v : String) :
    (∃ r, NameSelectorHandler.find_element emptyPage v = .error (.invalidSelector v r)) ∨
    NameSelectorHandler.find_element emptyPage v = .error (.elementNotFound (nameNormalize v) none) := by
  unfold NameSelectorHandler.find_element
  by_cases he : v = ""
  · exact Or.inl ⟨"Name 选择器必须是非空字符串", by simp [he]⟩
  · exact Or.inr (by simp [he, emptyPage])

theorem name_empty_find_elements (v : String) :
    (∃ r, NameSelectorHandler.find_elements emptyPage v = .error (.invalidSelector v r)) ∨
    NameSelectorHandler.find_elements emptyPage v = .error (.elementNotFound (nameNormalize v) none) := by
  unfold NameSelectorHandler.find_elements
  by_cases he : v = ""
  · exact Or.inl ⟨"Name 选择器必须是非空字符串", by simp [he]⟩
  · exact Or.inr (by simp [he, emptyPage])

theorem class_empty_find_element (v : String) :
    (∃ r, ClassSelectorHandler.find_element emptyPage v = .error (.invalidSelector v r)) ∨
    ClassSelectorHandler.find_element emptyPage v = .error (.elementNotFound (classNormalize v) none) := by
  unfold ClassSelectorHandler.find_element
  by_cases he : v = ""
  · exact Or.inl ⟨"Class 选择器必须是非空字符串", by simp [he]⟩
  · exact Or.inr (by simp [he, emptyPage])

theorem class_empty_find_elements (v : String) :
    (∃ r, ClassSelectorHandler.find_elements emptyPage v = .error (.invalidSelector v r)) ∨
    ClassSelectorHandler.find_elements emptyPage v = .error (.elementNotFound (classNormalize v) none) := by
  unfold ClassSelectorHandler.find_elements
  by_cases he : v = ""
  · exact Or.inl ⟨"Class 选择器必须是非空字符串", by simp [he]⟩
  · exact Or.inr (by simp [he, emptyPage])

/-- C3: on a page whose every query yields zero elements, `find_element` and
`find_elements` always raise — `ElementNotFoundError` whenever the lookup
reached the page, `InvalidSelectorError` only when parsing/validation
rejected the input before any query; moreover a handler `None` result is
normalized to `ElementNotFoundError`, and `find_elements` never returns an
empty list as a successful result on any page. -/
theorem zero_matches_always_not_found :
    (∀ s : String,
      (∃ sel c, SelectorEngine.find_element emptyPage s = .error (.elementNotFound sel c)) ∨
      (∃ sel r, SelectorEngine.find_element emptyPage s = .error (.invalidSelector sel r))) ∧
    (∀ s : String,
      (∃ sel c, SelectorEngine.find_elements emptyPage s = .error (.elementNotFound sel c)) ∨
      (∃ sel r, SelectorEngine.find_elements emptyPage s = .error (.invalidSelector sel r))) ∧
    (∀ (page : PageModel String) (s ty v : String),
      SelectorEngine.parse_selector s = .ok (ty, v) →
      SelectorEngine.dispatch_find_element page ty v s ≠ .ok none) ∧
    (∀ (page : PageModel String) (s : String) (l : List String),
      SelectorEngine.find_elements page s = .ok l → l ≠ []) := by
  refine ⟨?_, ?_, ?_, ?_⟩
  · intro s
    cases hp : SelectorEngine.parse_selector s with
    | error e =>
      obtain ⟨r, rfl⟩ := parse_selector_error_shape s e hp
      exact Or.inr ⟨s, r, by simp [SelectorEngine.find_element, hp]⟩
    | ok tv =>
      obtain ⟨ty, v⟩ := tv
      rcases parse_selector_type_mem s ty v hp with rfl | rfl | rfl | rfl | rfl
      · rcases css_empty_find_element v with ⟨r, hr⟩ | hr
        · exact Or.inr ⟨v, r,
            by simp [SelectorEngine.find_element, hp, SelectorEngine.dispatch_find_element, hr]⟩
        · exact Or.inl ⟨v, none,
            by simp [SelectorEngine.find_element, hp, SelectorEngine.dispatch_find_element, hr]⟩
      · rcases xpath_empty_find_element v with ⟨r, hr⟩ | hr
        · exact Or.inr ⟨v, r,
            by simp [SelectorEngine.find_element, hp, SelectorEngine.dispatch_find_element, hr]⟩
        · exact Or.inl ⟨v, none,
            by simp [SelectorEngine.find_element, hp, SelectorEngine.dispatch_find_element, hr]⟩
      · rcases id_empty_find_element v with ⟨r, hr⟩ | hr
        · exact Or.inr ⟨v, r,
            by simp [SelectorEngine.find_element, hp, SelectorEngine.dispatch_find_element, hr]⟩
        · exact Or.inl ⟨idNormalize v, none,
            by simp [SelectorEngine.find_element, hp, SelectorEngine.dispatch_find_element, hr]⟩
      · rcases name_empty_find_element v with ⟨r, hr⟩ | hr
        · exact Or.inr ⟨v, r,
            by simp [SelectorEngine.find_element, hp, SelectorEngine.dispatch_find_element, hr]⟩
        · exact Or.inl ⟨nameNormalize v, none,
            by simp [SelectorEngine.find_element, hp, SelectorEngine.dispatch_find_element, hr]⟩
      · rcases class_empty_find_element v with ⟨r, hr⟩ | hr
        · exact Or.inr ⟨v, r,
            by simp [SelectorEngine.find_element, hp, SelectorEngine.dispatch_find_element, hr]⟩
        · exact Or.inl ⟨classNormalize v, none,
            by simp [SelectorEngine.find_element, hp, SelectorEngine.dispatch_find_element, hr]⟩
  · intro s
    cases hp : SelectorEngine.parse_selector s with
    | error e =>
      obtain ⟨r, rfl⟩ := parse_selector_error_shape s e hp
      exact Or.inr ⟨s, r, by simp [SelectorEngine.find_elements, hp]⟩
    | ok tv =>
      obtain ⟨ty, v⟩ := tv
      rcases parse_selector_type_mem s ty v hp with rfl | rfl | rfl | rfl | rfl
      · rcases css_empty_find_elements v with ⟨r, hr⟩ | hr
        · exact Or.inr ⟨v, r,
            by simp [SelectorEngine.find_elements, hp, SelectorEngine.dispatch_find_elements, hr]⟩
        · exact Or.inl ⟨v, none,
            by simp [SelectorEngine.find_elements, hp, SelectorEngine.dispatch_find_elements, hr]⟩
      · rcases xpath_empty_find_elements v with ⟨r, hr⟩ | hr
        · exact Or.inr ⟨v, r,
            by simp [SelectorEngine.find_elements, hp, SelectorEngine.dispatch_find_elements, hr]⟩
        · exact Or.inl ⟨v, none,
            by simp [SelectorEngine.find_elements, hp, SelectorEngine.dispatch_find_elements, hr]⟩
      · rcases id_empty_find_elements v with ⟨r, hr⟩ | hr
        · exact Or.inr ⟨v, r,
            by simp [SelectorEngine.find_elements, hp, SelectorEngine.dispatch_find_elements, hr]⟩
        · exact Or.inl ⟨idNormalize v, none,
            by simp [SelectorEngine.find_elements, hp, SelectorEngine.dispatch_find_elements, hr]⟩
      · rcases name_empty_find_elements v with ⟨r, hr⟩ | hr
        · exact Or.inr ⟨v, r,
            by simp [SelectorEngine.find_elements, hp, SelectorEngine.dispatch_find_elements, hr]⟩
        · exact Or.inl ⟨nameNormalize v, none,
            by simp [SelectorEngine.find_elements, hp, SelectorEngine.dispatch_find_elements, hr]⟩
      · rcases class_empty_find_elements v with ⟨r, hr⟩ | hr
        · exact Or.inr ⟨v, r,
            by simp [SelectorEngine.find_elements, hp, SelectorEngine.dispatch_find_elements, hr]⟩
        · exact Or.inl ⟨classNormalize v, none,
            by simp [SelectorEngine.find_elements, hp, SelectorEngine.dispatch_find_elements, hr]⟩
  · intro page s ty v hp hd
    rcases parse_selector_type_mem s ty v hp with rfl | rfl | rfl | rfl | rfl
    all_goals
      unfold SelectorEngine.dispatch_find_element at hd
      unfold CSSSelectorHandler.find_element XPathSelectorHandler.find_element
        IDSelectorHandler.find_element NameSelectorHandler.find_element
        ClassSelectorHandler.find_element at hd
      repeat' split at hd
      all_goals simp_all
  · intro page s l h
    cases hp : SelectorEngine.parse_selector s with
    | error e => simp [SelectorEngine.find_elements, hp] at h
    | ok tv =>
      obtain ⟨ty, v⟩ := tv
      cases hd : SelectorEngine.dispatch_find_elements page ty v s with
      | ok ls =>
        cases ls with
        | nil => simp [SelectorEngine.find_elements, hp, hd] at h
        | cons x xs =>
          simp [SelectorEngine.find_elements, hp, hd] at h
          simp [← h]
      | error e =>
        cases e <;> simp [SelectorEngine.find_elements, hp, hd] at h

/-- Witness for C3, at the concrete selector `"name:missing"` on the
zero-match page (the §8 scenario) and a concrete successful lookup. -/
theorem zero_matches_always_not_found_witness :
    ((∃ sel c, SelectorEngine.find_element emptyPage "name:missing" =
        .error (.elementNotFound sel c)) ∨
     (∃ sel r, SelectorEngine.find_element emptyPage "name:missing" =
        .error (.invalidSelector sel r))) ∧
    SelectorEngine.dispatch_find_element echoPage "css" "div" "div" ≠ .ok none ∧
    ["div"] ≠ ([] : List String) :=
  ⟨zero_matches_always_not_found.1 "name:missing",
   zero_matches_always_not_found.2.2.1 echoPage "div" "css" "div" (by rfl),
   zero_matches_always_not_found.2.2.2 echoPage "div" ["div"] (by rfl)⟩

theorem chHasInfix_self_append (n suf : List Char) : chHasInfix n (n ++ suf) = true := by
  unfold chHasInfix
  simp [chStarts_self_append]

theorem chHasInfix_cons (n : List Char) (c : Char) (t : List Char)
    (h : chHasInfix n t = true) : chHasInfix n (c :: t) = true := by
  unfold chHasInfix
  simp [h]

theorem chHasInfix_append_left (pre n suf : List Char) :
    chHasInfix n (pre ++ (n ++ suf)) = true := by
  induction pre with
  | nil => simpa using chHasInfix_self_append n suf
  | cons c cs ih => exact chHasInfix_cons _ _ _ ih

theorem strContains_parts (pre mid suf : String) :
    strContains (pre ++ mid ++ suf) mid = true := by
  unfold strContains
  rw [strData_append, strData_append, List.append_assoc]
  exact chHasInfix_append_left pre.data mid.data suf.data

/-- C4 (amended): an exception from the page that is none of the typed
selector errors is wrapped by the engine as a `SelectorError` chaining the
original cause, with the offending selector string inside the message, for
class-typed and id-typed lookups (those handlers have no catch of their
own); for css-, name- and xpath-typed lookups the handler itself catches
the unexpected exception and re-raises it as `ElementNotFoundError`
(chaining the cause), so the engine reports `ElementNotFoundError` rather
than `SelectorError` there — for `find_element` and `find_elements` alike. -/
theorem unexpected_page_error_wrapping
    (s v e : String) (page : PageModel String)
    (hparse : SelectorEngine.parse_selector s = .ok ("class", v))
    (hv : v ≠ "")
    (hq : page.query_selector (classNormalize v) = .error e)
    (hqa : page.query_selector_all (classNormalize v) = .error e)
    (si vi ei : String) (pagei : PageModel String)
    (hparsei : SelectorEngine.parse_selector si = .ok ("id", vi))
    (hvi : vi ≠ "")
    (hqi : pagei.query_selector (idNormalize vi) = .error ei)
    (hqia : pagei.query_selector_all (idNormalize vi) = .error ei)
    (s2 v2 e2 : String) (page2 : PageModel String)
    (hparse2 : SelectorEngine.parse_selector s2 = .ok ("css", v2))
    (hv2 : (v2 = "" || pyIsBlank v2) = false)
    (hq2 : page2.query_selector v2 = .error e2)
    (hq2a : page2.query_selector_all v2 = .error e2)
    (s3 v3 e3 : String) (page3 : PageModel String)
    (hparse3 : SelectorEngine.parse_selector s3 = .ok ("name", v3))
    (hv3 : v3 ≠ "")
    (hq3 : page3.query_selector (nameNormalize v3) = .error e3)
    (hq3a : page3.query_selector_all (nameNormalize v3) = .error e3)
    (s4 v4 e4 : String) (page4 : PageModel String)
    (hparse4 : SelectorEngine.parse_selector s4 = .ok ("xpath", v4))
    (hv4 : v4 ≠ "")
    (hpre4 : (pyStartsWith v4 "//" || pyStartsWith v4 "(") = true)
    (hq4 : page4.locator_first v4 = .error e4)
    (hq4a : page4.locator_all v4 = .error e4) :
    (SelectorEngine.find_element page s =
       .error (.selectorError ("查找元素时发生未预期的错误: " ++ s ++ ", " ++ e) (some e)) ∧
     strContains ("查找元素时发生未预期的错误: " ++ s ++ ", " ++ e) s = true) ∧
    (SelectorEngine.find_elements page s =
       .error (.selectorError ("查找多个元素时发生未预期的错误: " ++ s ++ ", " ++ e) (some e)) ∧
     strContains ("查找多个元素时发生未预期的错误: " ++ s ++ ", " ++ e) s = true) ∧
    (SelectorEngine.find_element pagei si =
       .error (.selectorError ("查找元素时发生未预期的错误: " ++ si ++ ", " ++ ei) (some ei)) ∧
     strContains ("查找元素时发生未预期的错误: " ++ si ++ ", " ++ ei) si = true) ∧
    (SelectorEngine.find_elements pagei si =
       .error (.selectorError ("查找多个元素时发生未预期的错误: " ++ si ++ ", " ++ ei) (some ei)) ∧
     strContains ("查找多个元素时发生未预期的错误: " ++ si ++ ", " ++ ei) si = true) ∧
    (SelectorEngine.find_element page2 s2 = .error (.elementNotFound v2 (some e2)) ∧
     SelectorEngine.find_elements page2 s2 = .error (.elementNotFound v2 (some e2))) ∧
    (SelectorEngine.find_element page3 s3 =
       .error (.elementNotFound (nameNormalize v3) (some e3)) ∧
     SelectorEngine.find_elements page3 s3 =
       .error (.elementNotFound (nameNormalize v3) (some e3))) ∧
    (SelectorEngine.find_element page4 s4 = .error (.elementNotFound v4 (some e4)) ∧
     SelectorEngine.find_elements page4 s4 = .error (.elementNotFound v4 (some e4))) := by
  refine ⟨⟨?_, ?_⟩, ⟨?_, ?_⟩, ⟨?_, ?_⟩, ⟨?_, ?_⟩, ⟨?_, ?_⟩, ⟨?_, ?_⟩, ⟨?_, ?_⟩⟩
  · simp [SelectorEngine.find_element, hparse, SelectorEngine.dispatch_find_element,
      ClassSelectorHandler.find_element, hv, hq, PyExc.render]
  · rw [strAppend_assoc ("查找元素时发生未预期的错误: " ++ s) ", " e]
    exact strContains_parts "查找元素时发生未预期的错误: " s (", " ++ e)
  · simp [SelectorEngine.find_elements, hparse, SelectorEngine.dispatch_find_elements,
      ClassSelectorHandler.find_elements, hv, hqa, PyExc.render]
  · rw [strAppend_assoc ("查找多个元素时发生未预期的错误: " ++ s) ", " e]
    exact strContains_parts "查找多个元素时发生未预期的错误: " s (", " ++ e)
  · simp [SelectorEngine.find_element, hparsei, SelectorEngine.dispatch_find_element,
      IDSelectorHandler.find_element, hvi, hqi, PyExc.render]
  · rw [strAppend_assoc ("查找元素时发生未预期的错误: " ++ si) ", " ei]
    exact strContains_parts "查找元素时发生未预期的错误: " si (", " ++ ei)
  · simp [SelectorEngine.find_elements, hparsei, SelectorEngine.dispatch_find_elements,
      IDSelectorHandler.find_elements, hvi, hqia, PyExc.render]
  · rw [strAppend_assoc ("查找多个元素时发生未预期的错误: " ++ si) ", " ei]
    exact strContains_parts "查找多个元素时发生未预期的错误: " si (", " ++ ei)
  · simp [SelectorEngine.find_element, hparse2, SelectorEngine.dispatch_find_element,
      CSSSelectorHandler.find_element, hv2, hq2]
  · simp [SelectorEngine.find_elements, hparse2, SelectorEngine.dispatch_find_elements,
      CSSSelectorHandler.find_elements, hv2, hq2a]
  · simp [SelectorEngine.find_element, hparse3, SelectorEngine.dispatch_find_element,
      NameSelectorHandler.find_element, hv3, hq3]
  · simp [SelectorEngine.find_elements, hparse3, SelectorEngine.dispatch_find_elements,
      NameSelectorHandler.find_elements, hv3, hq3a]
  · simp [SelectorEngine.find_element, hparse4, SelectorEngine.dispatch_find_element,
      XPathSelectorHandler.find_element, hv4, hpre4, hq4]
  · simp [SelectorEngine.find_elements, hparse4, SelectorEngine.dispatch_find_elements,
      XPathSelectorHandler.find_elements, hv4, hpre4, hq4a]

/-- Witness for C4 (amended): one selector of each of the five types against
a page whose queries raise `"boom"` — class `".btn"` and id `"#x"` become
chained `SelectorError`s, while css `"div#x"`, name `"name:q"` and xpath
`"xpath://a[@id=1]"` are reported as `ElementNotFoundError` with the cause
chained. -/
theorem unexpected_page_error_wrapping_witness :
    (SelectorEngine.find_element boomPage ".btn" =
       .error (.selectorError ("查找元素时发生未预期的错误: " ++ ".btn" ++ ", " ++ "boom")
         (some "boom")) ∧
     strContains ("查找元素时发生未预期的错误: " ++ ".btn" ++ ", " ++ "boom") ".btn" = true) ∧
    (SelectorEngine.find_elements boomPage ".btn" =
       .error (.selectorError ("查找多个元素时发生未预期的错误: " ++ ".btn" ++ ", " ++ "boom")
         (some "boom")) ∧
     strContains ("查找多个元素时发生未预期的错误: " ++ ".btn" ++ ", " ++ "boom") ".btn" = true) ∧
    (SelectorEngine.find_element boomPage "#x" =
       .error (.selectorError ("查找元素时发生未预期的错误: " ++ "#x" ++ ", " ++ "boom")
         (some "boom")) ∧
     strContains ("查找元素时发生未预期的错误: " ++ "#x" ++ ", " ++ "boom") "#x" = true) ∧
    (SelectorEngine.find_elements boomPage "#x" =
       .error (.selectorError ("查找多个元素时发生未预期的错误: " ++ "#x" ++ ", " ++ "boom")
         (some "boom")) ∧
     strContains ("查找多个元素时发生未预期的错误: " ++ "#x" ++ ", " ++ "boom") "#x" = true) ∧
    (SelectorEngine.find_element boomPage "div#x" =
       .error (.elementNotFound "div#x" (some "boom")) ∧
     SelectorEngine.find_elements boomPage "div#x" =
       .error (.elementNotFound "div#x" (some "boom"))) ∧
    (SelectorEngine.find_element boomPage "name:q" =
       .error (.elementNotFound (nameNormalize "q") (some "boom")) ∧
     SelectorEngine.find_elements boomPage "name:q" =
       .error (.elementNotFound (nameNormalize "q") (some "boom"))) ∧
    (SelectorEngine.find_element boomPage "xpath://a[@id=1]" =
       .error (.elementNotFound "//a[@id=1]" (some "boom")) ∧
     SelectorEngine.find_elements boomPage "xpath://a[@id=1]" =
       .error (.elementNotFound "//a[@id=1]" (some "boom"))) :=
  unexpected_page_error_wrapping
    ".btn" "btn" "boom" boomPage (by rfl) (by decide) rfl rfl
    "#x" "x" "boom" boomPage (by rfl) (by decide) rfl rfl
    "div#x" "div#x" "boom" boomPage (by rfl) (by rfl) rfl rfl
    "name:q" "q" "boom" boomPage (by rfl) (by decide) rfl rfl
    "xpath://a[@id=1]" "//a[@id=1]" "boom" boomPage (by rfl) (by decide) (by rfl) rfl rfl

/-- Counterexample for C4 as stated: a css-typed lookup during which the
page raises a non-typed exception is reported as `ElementNotFoundError`
(with the cause chained by the handler), not as `SelectorError`. -/
theorem css_unexpected_error_reported_as_not_found :
    SelectorEngine.find_element boomPage "div#x" =
      .error (.elementNotFound "div#x" (some "boom")) := by
  rfl

/-- The loop of `execute_workflow` on a prefix of successes followed by a
failing action: it produces exactly the results of the prefix and the one
error result, and never executes what follows. -/
theorem runLoop_fail_fast (page : ExecPage) (pre : List ActionDescriptor)
    (a : ActionDescriptor) (rest : List ActionDescriptor)
    (hpre : ∀ x ∈ pre, (ActionExecutor.execute_action page x).status = .success)
    (ha : (ActionExecutor.execute_action page a).status = .error) :
    ActionExecutor.runLoop page (pre ++ a :: rest) =
      pre.map (ActionExecutor.execute_action page) ++ [ActionExecutor.execute_action page a] := by
  induction pre with
  | nil => simp [ActionExecutor.runLoop, ha]
  | cons x xs ih =>
    have hx : (ActionExecutor.execute_action page x).status = .success :=
      hpre x (List.mem_cons_self x xs)
    have hxs : ∀ y ∈ xs, (ActionExecutor.execute_action page y).status = .success :=
      fun y hy => hpre y (List.mem_cons_of_mem x hy)
    simp [ActionExecutor.runLoop, hx, ih hxs]

/-- `execute_workflow` always calls `close()` exactly once, on every exit
path. -/
theorem execute_workflow_closes_once (b : BrowserModel) (wf : List ActionDescriptor) :
    (ActionExecutor.execute_workflow b wf).closes = 1 := by
  unfold ActionExecutor.execute_workflow
  rcases b.launch with e | u
  · rfl
  · rcases b.create_context with e | u2
    · rfl
    · rcases b.new_page with e | page
      · rfl
      · rfl

/-- C1: when acquisition succeeds and some descriptor fails, the run returns
exactly the ordered results up to and including the first error result and
never executes the remaining descriptors, with the page acquired once and
released once; the release also happens exactly once on every other exit
path, and an exception escaping before the loop is caught and appended as
one synthetic error result before release. -/
theorem execute_workflow_fail_fast (b : BrowserModel) (page : ExecPage)
    (pre : List ActionDescriptor) (a : ActionDescriptor) (rest : List ActionDescriptor)
    (hl : b.launch = .ok ()) (hc : b.create_context = .ok ()) (hp : b.new_page = .ok page)
    (hpre : ∀ x ∈ pre, (ActionExecutor.execute_action page x).status = .success)
    (ha : (ActionExecutor.execute_action page a).status = .error) :
    ActionExecutor.execute_workflow b (pre ++ a :: rest) =
      { results := pre.map (ActionExecutor.execute_action page) ++
          [ActionExecutor.execute_action page a],
        pages_acquired := 1, closes := 1 } ∧
    (∀ (b2 : BrowserModel) (wf : List ActionDescriptor),
      (ActionExecutor.execute_workflow b2 wf).closes = 1) ∧
    (∀ (b2 : BrowserModel) (wf : List ActionDescriptor) (e : String),
      b2.launch = .ok () → b2.create_context = .ok () → b2.new_page = .error e →
      ActionExecutor.execute_workflow b2 wf =
        { results := [{ status := .error, message := e }], pages_acquired := 0, closes := 1 }) := by
  refine ⟨?_, fun b2 wf => execute_workflow_closes_once b2 wf, ?_⟩
  · unfold ActionExecutor.execute_workflow
    rw [hl, hc, hp]
    simp [runLoop_fail_fast page pre a rest hpre ha]
  · intro b2 wf e hl2 hc2 hp2
    unfold ActionExecutor.execute_workflow
    rw [hl2, hc2, hp2]

/-- Witness for C1: a three-step workflow whose second step fails yields
exactly two results, and the page is acquired and released exactly once. -/
theorem execute_workflow_fail_fast_witness :
    ActionExecutor.execute_workflow clickFailBrowser [gotoStep, clickStep, gotoStep] =
      { results := [ActionExecutor.execute_action clickFailPage gotoStep,
                    ActionExecutor.execute_action clickFailPage clickStep],
        pages_acquired := 1, closes := 1 } :=
  (execute_workflow_fail_fast clickFailBrowser clickFailPage [gotoStep] clickStep [gotoStep]
    rfl rfl rfl (by decide) (by decide)).1

/-- Counterexample for C2 as stated: `execute_workflow([])` does return `[]`,
but the page/session is still acquired — `launch`, `create_context` and
`new_page` all run before the descriptor loop is entered. -/
theorem execute_workflow_empty_still_acquires :
    (ActionExecutor.execute_workflow okBrowser []).results = [] ∧
    (ActionExecutor.execute_workflow okBrowser []).pages_acquired = 1 :=
  ⟨rfl, rfl⟩

/-- C2 (amended): on the empty descriptor list `execute_workflow` returns
the empty result list, and acquires and releases the page exactly once
(acquisition is unconditional, independent of the descriptor list). -/
theorem execute_workflow_empty (b : BrowserModel) (page : ExecPage)
    (hl : b.launch = .ok ()) (hc : b.create_context = .ok ()) (hp : b.new_page = .ok page) :
    ActionExecutor.execute_workflow b [] =
      { results := [], pages_acquired := 1, closes := 1 } := by
  unfold ActionExecutor.execute_workflow
  rw [hl, hc, hp]
  rfl

/-- Witness for C2 (amended), at the all-succeeding browser collaborator. -/
theorem execute_workflow_empty_witness :
    ActionExecutor.execute_workflow okBrowser [] =
      { results := [], pages_acquired := 1, closes := 1 } :=
  execute_workflow_empty okBrowser okExecPage rfl rfl rfl

/-- C8: `should_delay()` is `false` when no prior request timestamp is
recorded; otherwise it is `true` exactly when the elapsed time since the
recorded timestamp is strictly below `min_delay`; and the decision never
consults `max_delay` (nor `random_delay`): configurations agreeing on
`min_delay` decide identically. -/
theorem should_delay_spec :
    (∀ (now : ℚ) (cfg : DelayConfig),
      AntiCrawlerManager.should_delay none now cfg = false) ∧
    (∀ (t now : ℚ) (cfg : DelayConfig),
      AntiCrawlerManager.should_delay (some t) now cfg = true ↔ now - t < cfg.min_delay) ∧
    (∀ (l : Option ℚ) (now : ℚ) (c1 c2 : DelayConfig), c1.min_delay = c2.min_delay →
      AntiCrawlerManager.should_delay l now c1 = AntiCrawlerManager.should_delay l now c2) := by
  refine ⟨fun now cfg => rfl, fun t now cfg => by simp [AntiCrawlerManager.should_delay], ?_⟩
  intro l now c1 c2 hmin
  cases l with
  | none => rfl
  | some t => simp [AntiCrawlerManager.should_delay, hmin]

/-- Witness for C8, at the §8 policy `{min=2.0, max=2.0, randomize=false}`
and a second configuration differing only away from `min_delay`. -/
theorem should_delay_spec_witness :
    AntiCrawlerManager.should_delay none 5
      { min_delay := 2, max_delay := 2, random_delay := false } = false ∧
    (AntiCrawlerManager.should_delay (some 1) 2
      { min_delay := 2, max_delay := 2, random_delay := false } = true ↔ (2 : ℚ) - 1 < 2) ∧
    AntiCrawlerManager.should_delay (some 1) 2
      { min_delay := 2, max_delay := 2, random_delay := false } =
    AntiCrawlerManager.should_delay (some 1) 2
      { min_delay := 2, max_delay := 7, random_delay := true } :=
  ⟨should_delay_spec.1 5 { min_delay := 2, max_delay := 2, random_delay := false },
   should_delay_spec.2.1 1 2 { min_delay := 2, max_delay := 2, random_delay := false },
   should_delay_spec.2.2 (some 1) 2 { min_delay := 2, max_delay := 2, random_delay := false }
     { min_delay := 2, max_delay := 7, random_delay := true } rfl⟩

/-- C9 (amended): the pool mutations (add/remove user-agent, add/remove
proxy) mutate the in-memory list in place before attempting persistence, so
on a persistence failure the caller observes the error with the new
in-memory pool in effect; the delay-policy update, however, persists first
and assigns the in-memory config only on success, so on a persistence
failure the caller observes the error with the OLD config still in effect.
No partial state is observable in either case. -/
theorem pool_mutation_memory_vs_persistence :
    (∀ (s : AntiCrawlerState) (ua : String), ua ∉ s.user_agents →
      AntiCrawlerManager.add_user_agent false s ua =
        ({ s with user_agents := s.user_agents ++ [ua] }, true)) ∧
    (∀ (s : AntiCrawlerState) (ua : String), ua ∈ s.user_agents →
      AntiCrawlerManager.remove_user_agent false s ua =
        ({ s with user_agents := s.user_agents.erase ua }, true)) ∧
    (∀ (s : AntiCrawlerState) (p : Proxy),
      AntiCrawlerManager.add_proxy true false s p =
        ({ s with proxies := s.proxies ++ [p] }, true)) ∧
    (∀ (s : AntiCrawlerState) (p : Proxy), p ∈ s.proxies →
      AntiCrawlerManager.remove_proxy false s p =
        ({ s with proxies := s.proxies.erase p }, true)) ∧
    (∀ (s : AntiCrawlerState) (mn mx : ℚ) (rnd : Bool),
      AntiCrawlerManager.update_delay_config false s mn mx rnd = (s, true)) := by
  refine ⟨?_, ?_, ?_, ?_, ?_⟩
  · intro s ua h
    simp [AntiCrawlerManager.add_user_agent, AntiCrawlerManager.save_user_agents, h]
  · intro s ua h
    simp [AntiCrawlerManager.remove_user_agent, AntiCrawlerManager.save_user_agents, h]
  · intro s p
    simp [AntiCrawlerManager.add_proxy, AntiCrawlerManager.save_proxies]
  · intro s p h
    simp [AntiCrawlerManager.remove_proxy, AntiCrawlerManager.save_proxies, h]
  · intro s mn mx rnd
    simp [AntiCrawlerManager.update_delay_config, AntiCrawlerManager.save_delay_config]

/-- Witness for C9 (amended), at the sample state: a failed save keeps the
appended user-agent in memory, while a failed delay-config save keeps the
old config. -/
theorem pool_mutation_memory_vs_persistence_witness :
    AntiCrawlerManager.add_user_agent false sampleACState "NewUA/1.0" =
      ({ sampleACState with
          user_agents := sampleACState.user_agents ++ ["NewUA/1.0"] }, true) ∧
    AntiCrawlerManager.update_delay_config false sampleACState 5 9 false =
      (sampleACState, true) :=
  ⟨pool_mutation_memory_vs_persistence.1 sampleACState "NewUA/1.0" (by decide),
   pool_mutation_memory_vs_persistence.2.2.2.2 sampleACState 5 9 false⟩

/-- Counterexample for C9 as stated: after `update_delay_config` hits a
persistence failure, the caller observes the error with the OLD in-memory
delay config — the new value was never applied, contradicting "the new
in-memory state in effect". -/
theorem update_delay_config_persist_failure_keeps_old_config :
    AntiCrawlerManager.update_delay_config false sampleACState 5 9 false =
      (sampleACState, true) ∧
    sampleACState.delay_config ≠
      { min_delay := 5, max_delay := 9, random_delay := false } := by
  constructor
  · rfl
  · intro h
    have h5 : (1 : ℚ) = 5 := congrArg DelayConfig.min_delay h
    norm_num at h5

theorem chStarts_head_ne {c d : Char} (cs ds : List Char) (h : (c == d) = false) :
    chStarts (c :: cs) (d :: ds) = false := by
  simp [chStarts, h]

theorem pyStartsWith_wrapped_not_name_colon (v : String)
    (h : pyStartsWith v "[name=\"" = true) : pyStartsWith v "name:" = false := by
  obtain ⟨t, ht, _⟩ := chStarts_cons h
  unfold pyStartsWith
  rw [ht]
  exact chStarts_head_ne _ _ (by decide)

theorem pyStartsWith_dot_not_class_colon (v : String)
    (h : pyStartsWith v "." = true) : pyStartsWith v "class:" = false := by
  obtain ⟨t, ht, _⟩ := chStarts_cons h
  unfold pyStartsWith
  rw [ht]
  exact chStarts_head_ne _ _ (by decide)

theorem pyStartsWith_ne_empty (v p : String) (hp : p ≠ "")
    (h : pyStartsWith v p = true) : v ≠ "" := by
  intro hv
  subst hv
  cases p with
  | mk l =>
    cases l with
    | nil => exact hp rfl
    | cons c cs => simp [pyStartsWith, chStarts] at h

theorem nameNormalize_fixed (v : String) (h : pyStartsWith v "[name=\"" = true) :
    nameNormalize v = v := by
  unfold nameNormalize
  rw [h, pyStartsWith_wrapped_not_name_colon v h]
  simp

theorem classNormalize_fixed (v : String) (h : pyStartsWith v "." = true) :
    classNormalize v = v := by
  unfold classNormalize
  rw [h, pyStartsWith_dot_not_class_colon v h]
  simp

theorem nameNormalize_starts (v : String) :
    pyStartsWith (nameNormalize v) "[name=\"" = true := by
  unfold nameNormalize
  by_cases h1 : pyStartsWith v "[name=\"" = true
  · rw [h1, pyStartsWith_wrapped_not_name_colon v h1]
    simpa using h1
  · rw [Bool.not_eq_true] at h1
    by_cases h2 : pyStartsWith v "name:" = true
    · rw [h1, h2]
      simp only [Bool.not_false, Bool.not_true, Bool.and_false, Bool.false_eq_true,
        if_false, if_true]
      rw [strAppend_assoc]
      exact pyStartsWith_append "[name=\"" (pyAfterColon v ++ "\"]")
    · rw [Bool.not_eq_true] at h2
      rw [h1, h2]
      simp only [Bool.not_false, Bool.and_self, if_true]
      rw [strAppend_assoc]
      exact pyStartsWith_append "[name=\"" (v ++ "\"]")

theorem classNormalize_starts (v : String) :
    pyStartsWith (classNormalize v) "." = true := by
  unfold classNormalize
  by_cases h1 : pyStartsWith v "." = true
  · rw [h1, pyStartsWith_dot_not_class_colon v h1]
    simpa using h1
  · rw [Bool.not_eq_true] at h1
    by_cases h2 : pyStartsWith v "class:" = true
    · rw [h1, h2]
      simp only [Bool.not_false, Bool.not_true, Bool.and_false, Bool.false_eq_true,
        if_false, if_true]
      exact pyStartsWith_append "." (pyAfterColon v)
    · rw [Bool.not_eq_true] at h2
      rw [h1, h2]
      simp only [Bool.not_false, Bool.and_self, if_true]
      exact pyStartsWith_append "." v

/-- C10: the value normalization of the name and class handlers is
idempotent — an already-normalized value (wrapped `[name="…"]`, resp.
starting with `.`) is left unchanged and, on a lookup, is sent to the page
verbatim (the echo page returns the very string it was queried with), and
normalizing twice equals normalizing once on every input. -/
theorem handler_normalization_idempotent :
    (∀ v : String, pyStartsWith v "[name=\"" = true → nameNormalize v = v) ∧
    (∀ v : String, pyStartsWith v "." = true → classNormalize v = v) ∧
    (∀ v : String, nameNormalize (nameNormalize v) = nameNormalize v) ∧
    (∀ v : String, classNormalize (classNormalize v) = classNormalize v) ∧
    (∀ v : String, pyStartsWith v "[name=\"" = true →
      NameSelectorHandler.find_element echoPage v = .ok (some v) ∧
      NameSelectorHandler.find_elements echoPage v = .ok [v]) ∧
    (∀ v : String, pyStartsWith v "." = true →
      ClassSelectorHandler.find_element echoPage v = .ok (some v) ∧
      ClassSelectorHandler.find_elements echoPage v = .ok [v]) := by
  refine ⟨nameNormalize_fixed, classNormalize_fixed,
    fun v => nameNormalize_fixed _ (nameNormalize_starts v),
    fun v => classNormalize_fixed _ (classNormalize_starts v), ?_, ?_⟩
  · intro v h
    have hne : v ≠ "" := pyStartsWith_ne_empty v "[name=\"" (by decide) h
    constructor
    · simp [NameSelectorHandler.find_element, hne, echoPage, nameNormalize_fixed v h]
    · simp [NameSelectorHandler.find_elements, hne, echoPage, nameNormalize_fixed v h]
  · intro v h
    have hne : v ≠ "" := pyStartsWith_ne_empty v "." (by decide) h
    constructor
    · simp [ClassSelectorHandler.find_element, hne, echoPage, classNormalize_fixed v h]
    · simp [ClassSelectorHandler.find_elements, hne, echoPage, classNormalize_fixed v h]

/-- Witness for C10, at the already-normalized values `[name="q"]` and
`.btn`. -/
theorem handler_normalization_idempotent_witness :
    nameNormalize "[name=\"q\"]" = "[name=\"q\"]" ∧
    classNormalize ".btn" = ".btn" ∧
    (NameSelectorHandler.find_element echoPage "[name=\"q\"]" = .ok (some "[name=\"q\"]") ∧
     NameSelectorHandler.find_elements echoPage "[name=\"q\"]" = .ok ["[name=\"q\"]"]) ∧
    (ClassSelectorHandler.find_element echoPage ".btn" = .ok (some ".btn") ∧
     ClassSelectorHandler.find_elements echoPage ".btn" = .ok [".btn"]) :=
  ⟨handler_normalization_idempotent.1 "[name=\"q\"]" (by decide),
   handler_normalization_idempotent.2.1 ".btn" (by decide),
   handler_normalization_idempotent.2.2.2.2.1 "[name=\"q\"]" (by decide),
   handler_normalization_idempotent.2.2.2.2.2 ".btn" (by decide)⟩
